import Mathlib

/-!
# carbocation/go.user : account registration, login and lookup

A shallow embedding of `src/user.go` (package `user`).

The package talks to two collaborators that are not part of the repository:
`database/sql` (through the package-level handle `db`) and `bcrypt`.  Both are
taken as parameters: a `DB σ` is an arbitrary implementation of the calls the
source makes, over an arbitrary store state `σ`, and a `Bcrypt` is an arbitrary
implementation of the two hashing calls.  Every call made on the store is also
recorded, in order, in a call log, so that statements such as "no transaction
was begun" or "the transaction was rolled back and not committed" can be read
off the result.

Go pointers that may be `nil` (`*User`) are `Option User`; Go `error` values
are `Option GoError` (`none` is `nil`).
-/

namespace GoUser

/-! ## Values -/

/-- Go `error` values that occur in the package.  `errorsNew text` is the value
of `errors.New(text)` built by the package itself; `sql` is an error value
produced by `database/sql` or the driver; `bcrypt` is one produced by the
hashing library. -/
inductive GoError where
  | errorsNew (text : String)
  | sql (text : String)
  | bcrypt (text : String)
deriving DecidableEq

/-- The method `Error()` of an error value: its text. -/
def GoError.Error : GoError → String
  | .errorsNew text => text
  | .sql text => text
  | .bcrypt text => text

/-- The struct `User`.  `Id` is an `int64` (no arithmetic is done on it),
`Created` is a `time.Time`, kept as an instant whose zero value is `0`. -/
structure User where
  Id : Int
  Handle : String
  Email : String
  Password : String
  Created : Nat
  PlaintextPassword : String
deriving DecidableEq

/-- The value `new(User)` points to: every field is its zero value. -/
def newUser : User :=
  { Id := 0, Handle := "", Email := "", Password := "", Created := 0, PlaintextPassword := "" }

/-- The method `GetId`. -/
def GetId (u : User) : Int := u.Id

/-- The method `Guest`. -/
def Guest (u : User) : Bool :=
  if u.Id = 0 then true else false

/-- Go `len(s)` for a string: its length in bytes. -/
def len (s : String) : Nat := s.utf8ByteSize

/-! ## The collaborators -/

/-- An argument handed to `QueryRow` (an `interface{}` holding a string or an
`int64`). -/
inductive Arg where
  | str (s : String)
  | int (i : Int)
deriving DecidableEq

/-- The five columns `Scan` reads in the two lookups. -/
structure Row where
  Id : Int
  Handle : String
  Email : String
  Password : String
  Created : Nat
deriving DecidableEq

/-- The package-level value `queries` (its declaration is not among the source
files): the text of the three statements. -/
structure Queries where
  UserCreate : String
  UserFindByHandle : String
  UserFindById : String
deriving DecidableEq

/-- The calls the package makes on `database/sql`, over a store state `σ`.
A prepared statement is identified by the text it was prepared from.
`QueryRowScanUser` is `stmt.QueryRow(args...).Scan(&Id, &Handle, &Email,
&Password, &Created)`, `QueryRowScanId` is `stmt.QueryRow(args...).Scan(&Id)`. -/
structure DB (σ : Type) where
  Prepare : String → σ → Option GoError × σ
  QueryRowScanUser : String → List Arg → σ → Except GoError Row × σ
  StmtClose : String → σ → σ
  Begin : σ → Option GoError × σ
  TxPrepare : String → σ → Option GoError × σ
  QueryRowScanId : String → List Arg → σ → Except GoError Int × σ
  Rollback : σ → Option GoError × σ
  Commit : σ → Option GoError × σ

/-- The two calls the package makes on `bcrypt`, and the constant
`bcrypt.DefaultCost`.  `GenerateFromPassword` salts at random; a call happens
at most once per operation, so an arbitrary function of the arguments covers
every behaviour. -/
structure Bcrypt where
  DefaultCost : Nat
  GenerateFromPassword : String → Nat → Except GoError String
  CompareHashAndPassword : String → String → Option GoError

/-- One call on the store, as recorded in the call log. -/
inductive DbCall where
  | Prepare (query : String)
  | QueryRow (query : String) (args : List Arg)
  | StmtClose (query : String)
  | Begin
  | TxPrepare (query : String)
  | Rollback
  | Commit
deriving DecidableEq

/-- The store state together with the log of the calls made so far. -/
structure World (σ : Type) where
  st : σ
  log : List DbCall

/-- How a Go function call ends: it returns a value, or the goroutine panics
(here only by a method call through a nil pointer). -/
inductive Outcome (α : Type) where
  | returned (v : α)
  | panicked
deriving DecidableEq

/-! ## Logged store calls -/

section Calls
variable {σ : Type}

def callPrepare (db : DB σ) (query : String) (w : World σ) : Option GoError × World σ :=
  ((db.Prepare query w.st).1, ⟨(db.Prepare query w.st).2, w.log ++ [DbCall.Prepare query]⟩)

def callQueryRowScanUser (db : DB σ) (query : String) (args : List Arg) (w : World σ) :
    Except GoError Row × World σ :=
  ((db.QueryRowScanUser query args w.st).1,
    ⟨(db.QueryRowScanUser query args w.st).2, w.log ++ [DbCall.QueryRow query args]⟩)

def callStmtClose (db : DB σ) (query : String) (w : World σ) : World σ :=
  ⟨db.StmtClose query w.st, w.log ++ [DbCall.StmtClose query]⟩

def callBegin (db : DB σ) (w : World σ) : Option GoError × World σ :=
  ((db.Begin w.st).1, ⟨(db.Begin w.st).2, w.log ++ [DbCall.Begin]⟩)

def callTxPrepare (db : DB σ) (query : String) (w : World σ) : Option GoError × World σ :=
  ((db.TxPrepare query w.st).1, ⟨(db.TxPrepare query w.st).2, w.log ++ [DbCall.TxPrepare query]⟩)

def callQueryRowScanId (db : DB σ) (query : String) (args : List Arg) (w : World σ) :
    Except GoError Int × World σ :=
  ((db.QueryRowScanId query args w.st).1,
    ⟨(db.QueryRowScanId query args w.st).2, w.log ++ [DbCall.QueryRow query args]⟩)

def callRollback (db : DB σ) (w : World σ) : World σ :=
  ⟨(db.Rollback w.st).2, w.log ++ [DbCall.Rollback]⟩

def callCommit (db : DB σ) (w : World σ) : World σ :=
  ⟨(db.Commit w.st).2, w.log ++ [DbCall.Commit]⟩

end Calls

/-! ## The package -/

/-- The text of the error `SetPassword` builds for an empty password. -/
def msgNoPassword : String := "Error: no password was provided."

/-- The text of the error `createInDb` builds when `tx.Prepare` fails. -/
def msgDatabaseProblem : String := "Error: We had a database problem."

/-- The text of the error `createInDb` builds when the insert fails. -/
def msgAlreadyFound : String :=
  "Error: your username or email address was already found in the database. Please choose differently."

/-- The text of the error `Login` builds on either failure. -/
def msgInvalidLogin : String := "The username or password was invalid"

/-- What `SetPassword` leaves: the receiver after the call and the error. -/
structure SetPasswordRet where
  u : User
  err : Option GoError
deriving DecidableEq

/-- The method `SetPassword`. -/
def SetPassword (bc : Bcrypt) (u : User) (password : String) : SetPasswordRet :=
  if len password < 1 then
    ⟨u, some (GoError.errorsNew msgNoPassword)⟩
  else
    match bc.GenerateFromPassword password bc.DefaultCost with
    | .error err => ⟨{ u with PlaintextPassword := "" }, some err⟩
    | .ok hpass => ⟨{ u with PlaintextPassword := "", Password := hpass }, none⟩

/-- What `createInDb` and `Register` leave: the receiver after the call, how
the call ended (with which error), and the store. -/
structure RegisterRet (σ : Type) where
  u : User
  out : Outcome (Option GoError)
  world : World σ

/-- The method `createInDb`.  The error of `db.Begin()` is overwritten unread by
the next assignment to `err`; when `Begin` failed, `tx` is nil and
`tx.Prepare` dereferences it.  The results of `tx.Rollback()` and
`tx.Commit()` are discarded.  The deferred `Close` runs last, on the two paths
that registered it. -/
def createInDb {σ : Type} (queries : Queries) (db : DB σ) (u : User) (w : World σ) :
    RegisterRet σ :=
  match callBegin db w with
  | (some _, w1) => ⟨u, .panicked, w1⟩
  | (none, w1) =>
    match callTxPrepare db queries.UserCreate w1 with
    | (some _, w2) =>
      ⟨u, .returned (some (GoError.errorsNew msgDatabaseProblem)), callRollback db w2⟩
    | (none, w2) =>
      match callQueryRowScanId db queries.UserCreate
          [Arg.str u.Handle, Arg.str u.Email, Arg.str u.Password] w2 with
      | (.error _, w3) =>
        ⟨u, .returned (some (GoError.errorsNew msgAlreadyFound)),
          callStmtClose db queries.UserCreate (callRollback db w3)⟩
      | (.ok id, w3) =>
        ⟨{ u with Id := id }, .returned none,
          callStmtClose db queries.UserCreate (callCommit db w3)⟩

/-- The method `Register`. -/
def Register {σ : Type} (queries : Queries) (db : DB σ) (bc : Bcrypt) (u : User)
    (w : World σ) : RegisterRet σ :=
  match SetPassword bc u u.PlaintextPassword with
  | ⟨u1, some err⟩ => ⟨u1, .returned (some err), w⟩
  | ⟨u1, none⟩ => createInDb queries db u1 w

/-- What a lookup returns: the `*User` (nil is `none`), the error, and the store. -/
structure FindRet (σ : Type) where
  user : Option User
  err : Option GoError
  world : World σ

/-- The user a successful `Scan` fills in, starting from `new(User)`. -/
def scanInto (user : User) (row : Row) : User :=
  { user with Id := row.Id, Handle := row.Handle, Email := row.Email,
              Password := row.Password, Created := row.Created }

/-- The function `FindOneByHandle`. -/
def FindOneByHandle {σ : Type} (queries : Queries) (db : DB σ) (handle : String)
    (w : World σ) : FindRet σ :=
  match callPrepare db queries.UserFindByHandle w with
  | (some err, w1) => ⟨some newUser, some err, w1⟩
  | (none, w1) =>
    match callQueryRowScanUser db queries.UserFindByHandle [Arg.str handle] w1 with
    | (.error err, w2) =>
      ⟨some newUser, some err, callStmtClose db queries.UserFindByHandle w2⟩
    | (.ok row, w2) =>
      ⟨some (scanInto newUser row), none, callStmtClose db queries.UserFindByHandle w2⟩

/-- The function `FindOneUserById`. -/
def FindOneUserById {σ : Type} (queries : Queries) (db : DB σ) (id : Int)
    (w : World σ) : FindRet σ :=
  match callPrepare db queries.UserFindById w with
  | (some err, w1) => ⟨some newUser, some err, w1⟩
  | (none, w1) =>
    match callQueryRowScanUser db queries.UserFindById [Arg.int id] w1 with
    | (.error err, w2) =>
      ⟨some newUser, some err, callStmtClose db queries.UserFindById w2⟩
    | (.ok row, w2) =>
      ⟨some (scanInto newUser row), none, callStmtClose db queries.UserFindById w2⟩

/-- What `Login` leaves: the returned `*User` and error (or a panic), the
receiver `login` after the call, and the store. -/
structure LoginRet (σ : Type) where
  out : Outcome (Option User × Option GoError)
  login : User
  world : World σ

/-- The method `Login`.  `user.Password` dereferences the pointer the lookup
returned. -/
def Login {σ : Type} (queries : Queries) (db : DB σ) (bc : Bcrypt) (login : User)
    (w : World σ) : LoginRet σ :=
  match FindOneByHandle queries db login.Handle w with
  | ⟨_, some _, w1⟩ =>
    ⟨.returned (some newUser, some (GoError.errorsNew msgInvalidLogin)), login, w1⟩
  | ⟨none, none, w1⟩ => ⟨.panicked, login, w1⟩
  | ⟨some user, none, w1⟩ =>
    match bc.CompareHashAndPassword user.Password login.PlaintextPassword with
    | some _ =>
      ⟨.returned (some newUser, some (GoError.errorsNew msgInvalidLogin)),
        { login with PlaintextPassword := "" }, w1⟩
    | none =>
      ⟨.returned (some user, none), { login with PlaintextPassword := "" }, w1⟩

/-- The calls made on the store between the world `w` and the later world `w1`. -/
def callsSince {σ : Type} (w w1 : World σ) : List DbCall :=
  w1.log.drop w.log.length

/-- The fixed errors the package builds itself with `errors.New`. -/
def moduleErrors : List GoError :=
  [GoError.errorsNew msgNoPassword, GoError.errorsNew msgDatabaseProblem,
   GoError.errorsNew msgAlreadyFound, GoError.errorsNew msgInvalidLogin]

/-! ## A concrete store and a concrete hashing library

Instances of the two parameters, used to evaluate the package on concrete
inputs. -/

/-- An in-memory store: the committed rows, the rows inserted by the open
transaction, and switches that make a call fail. -/
structure MemStore where
  rows : List Row
  pending : List Row
  failPrepare : Bool
  failBegin : Bool
  failTxPrepare : Bool
  failScan : Bool
  failCommit : Bool
deriving DecidableEq

def errNoRows : GoError := GoError.sql "sql: no rows in result set"

def errBadConn : GoError := GoError.sql "driver: bad connection"

def errDuplicate : GoError :=
  GoError.sql "pq: duplicate key value violates unique constraint"

/-- The row of the in-memory store a lookup scans: the first one the
arguments select, or the no-rows error. -/
def memScanUser (args : List Arg) (s : MemStore) : Except GoError Row :=
  match args with
  | [Arg.str h] =>
    match s.rows.find? (fun r => decide (r.Handle = h)) with
    | some r => .ok r
    | none => .error errNoRows
  | [Arg.int i] =>
    match s.rows.find? (fun r => decide (r.Id = i)) with
    | some r => .ok r
    | none => .error errNoRows
  | _ => .error errBadConn

/-- The insert of the in-memory store: it fails when the handle or the email is
already taken, and otherwise adds a pending row under the next id.  With the
switch `failScan` the row is added and reading the returned id then fails. -/
def memInsert (args : List Arg) (s : MemStore) : Except GoError Int × MemStore :=
  match args with
  | [Arg.str h, Arg.str e, Arg.str p] =>
    if s.rows.any (fun r => decide (r.Handle = h) || decide (r.Email = e)) then
      (.error errDuplicate, s)
    else
      (if s.failScan then .error errBadConn else .ok (Int.ofNat (s.rows.length + 1)),
        { s with pending := s.pending ++
            [{ Id := Int.ofNat (s.rows.length + 1), Handle := h, Email := e,
               Password := p, Created := 1 }] })
  | _ => (.error errBadConn, s)

/-- The commit of the in-memory store: it publishes the pending rows unless it
fails. -/
def memCommit (s : MemStore) : Option GoError × MemStore :=
  if s.failCommit then (some errBadConn, { s with pending := [] })
  else (none, { s with rows := s.rows ++ s.pending, pending := [] })

/-- The error a switched-off call of the in-memory store returns. -/
def memFail (fail : Bool) : Option GoError :=
  if fail then some errBadConn else none

/-- The rollback of the in-memory store: it drops the pending rows. -/
def memRollback (s : MemStore) : Option GoError × MemStore :=
  (none, { s with pending := [] })

/-- The in-memory implementation of the store calls. -/
def memDB : DB MemStore :=
  { Prepare := fun _ s => (memFail s.failPrepare, s),
    QueryRowScanUser := fun _ args s => (memScanUser args s, s),
    StmtClose := fun _ s => s,
    Begin := fun s => (memFail s.failBegin, s),
    TxPrepare := fun _ s => (memFail s.failTxPrepare, s),
    QueryRowScanId := fun _ args s => memInsert args s,
    Rollback := memRollback,
    Commit := memCommit }

/-- An empty store in which every call succeeds. -/
def emptyStore : MemStore :=
  { rows := [], pending := [], failPrepare := false, failBegin := false,
    failTxPrepare := false, failScan := false, failCommit := false }

/-- The world of a store on which no call has been made yet. -/
def fresh (s : MemStore) : World MemStore := ⟨s, []⟩

def errMismatch : GoError :=
  GoError.bcrypt "crypto/bcrypt: hashedPassword is not the hash of the given password"

def errCost : GoError := GoError.bcrypt "crypto/bcrypt: cost out of range"

/-- A toy hashing library: the digest is a marker followed by the password. -/
def toyBcrypt : Bcrypt where
  DefaultCost := 10
  GenerateFromPassword := fun password _ => .ok ("$2a$10$" ++ password)
  CompareHashAndPassword := fun hash password =>
    if hash = "$2a$10$" ++ password then none else some errMismatch

/-- A hashing library whose `GenerateFromPassword` always fails. -/
def failingBcrypt : Bcrypt where
  DefaultCost := 10
  GenerateFromPassword := fun _ _ => .error errCost
  CompareHashAndPassword := fun _ _ => some errMismatch

/-- The three statements, as a concrete `queries` value. -/
def sampleQueries : Queries :=
  { UserCreate := "INSERT INTO account (handle, email, password) VALUES ($1, $2, $3) RETURNING id",
    UserFindByHandle := "SELECT id, handle, email, password, created FROM account WHERE handle = $1",
    UserFindById := "SELECT id, handle, email, password, created FROM account WHERE id = $1" }

/-- A candidate user as a caller fills it in before `Register`. -/
def alice : User :=
  { newUser with Handle := "alice", Email := "alice@example.org", PlaintextPassword := "secret" }

/-- The row a successful registration of `alice` in the empty store leaves. -/
def aliceRow : Row :=
  { Id := 1, Handle := "alice", Email := "alice@example.org", Password := "$2a$10$secret",
    Created := 1 }

/-- A store holding the row of `alice`. -/
def aliceStore : MemStore := { emptyStore with rows := [aliceRow] }

/-- An empty store in which the insert adds its row and reading the returned
id then fails. -/
def scanFailStore : MemStore := { emptyStore with failScan := true }

end GoUser

/-! ## Basic facts -/

namespace GoUser

theorem len_lt_one_iff (s : String) : len s < 1 ↔ s = "" := by
  unfold len
  constructor
  · intro h
    rcases s with ⟨cs⟩
    cases cs with
    | nil => rfl
    | cons c cs =>
      have hc : 0 < c.utf8Size := Char.utf8Size_pos c
      simp only [String.utf8ByteSize, String.utf8ByteSize.go] at h
      omega
  · intro h
    subst h
    decide

theorem callsSince_append {σ : Type} (w : World σ) (s : σ) (calls : List DbCall) :
    callsSince w ⟨s, w.log ++ calls⟩ = calls := by
  simp [callsSince]

/-- A lookup by handle, case by case on what the store answers. -/
theorem FindOneByHandle_cases {σ : Type} (queries : Queries) (db : DB σ) (handle : String)
    (w : World σ) :
    (∀ e, (db.Prepare queries.UserFindByHandle w.st).1 = some e →
      (FindOneByHandle queries db handle w).user = some newUser ∧
      (FindOneByHandle queries db handle w).err = some e) ∧
    (∀ e, (db.Prepare queries.UserFindByHandle w.st).1 = none →
      (db.QueryRowScanUser queries.UserFindByHandle [Arg.str handle]
        (db.Prepare queries.UserFindByHandle w.st).2).1 = .error e →
      (FindOneByHandle queries db handle w).user = some newUser ∧
      (FindOneByHandle queries db handle w).err = some e) ∧
    (∀ row, (db.Prepare queries.UserFindByHandle w.st).1 = none →
      (db.QueryRowScanUser queries.UserFindByHandle [Arg.str handle]
        (db.Prepare queries.UserFindByHandle w.st).2).1 = .ok row →
      (FindOneByHandle queries db handle w).user = some (scanInto newUser row) ∧
      (FindOneByHandle queries db handle w).err = none) := by
  refine ⟨?_, ?_, ?_⟩
  · intro e h
    simp [FindOneByHandle, callPrepare, h]
  · intro e h1 h2
    simp [FindOneByHandle, callPrepare, callQueryRowScanUser, h1, h2]
  · intro row h1 h2
    simp [FindOneByHandle, callPrepare, callQueryRowScanUser, h1, h2]

/-- A lookup by id, case by case on what the store answers. -/
theorem FindOneUserById_cases {σ : Type} (queries : Queries) (db : DB σ) (id : Int)
    (w : World σ) :
    (∀ e, (db.Prepare queries.UserFindById w.st).1 = some e →
      (FindOneUserById queries db id w).user = some newUser ∧
      (FindOneUserById queries db id w).err = some e) ∧
    (∀ e, (db.Prepare queries.UserFindById w.st).1 = none →
      (db.QueryRowScanUser queries.UserFindById [Arg.int id]
        (db.Prepare queries.UserFindById w.st).2).1 = .error e →
      (FindOneUserById queries db id w).user = some newUser ∧
      (FindOneUserById queries db id w).err = some e) ∧
    (∀ row, (db.Prepare queries.UserFindById w.st).1 = none →
      (db.QueryRowScanUser queries.UserFindById [Arg.int id]
        (db.Prepare queries.UserFindById w.st).2).1 = .ok row →
      (FindOneUserById queries db id w).user = some (scanInto newUser row) ∧
      (FindOneUserById queries db id w).err = none) := by
  refine ⟨?_, ?_, ?_⟩
  · intro e h
    simp [FindOneUserById, callPrepare, h]
  · intro e h1 h2
    simp [FindOneUserById, callPrepare, callQueryRowScanUser, h1, h2]
  · intro row h1 h2
    simp [FindOneUserById, callPrepare, callQueryRowScanUser, h1, h2]

/-- The pointer a lookup by handle returns is never nil. -/
theorem FindOneByHandle_user_isSome {σ : Type} (queries : Queries) (db : DB σ)
    (handle : String) (w : World σ) :
    ∃ user, (FindOneByHandle queries db handle w).user = some user := by
  unfold FindOneByHandle
  split
  · exact ⟨_, rfl⟩
  · split
    · exact ⟨_, rfl⟩
    · exact ⟨_, rfl⟩

/-- The pointer a lookup by id returns is never nil. -/
theorem FindOneUserById_user_isSome {σ : Type} (queries : Queries) (db : DB σ)
    (id : Int) (w : World σ) :
    ∃ user, (FindOneUserById queries db id w).user = some user := by
  unfold FindOneUserById
  split
  · exact ⟨_, rfl⟩
  · split
    · exact ⟨_, rfl⟩
    · exact ⟨_, rfl⟩

/-- What `Login` returns and leaves, in terms of the lookup it starts with. -/
theorem Login_eq {σ : Type} (queries : Queries) (db : DB σ) (bc : Bcrypt) (login : User)
    (w : World σ) (found : User)
    (hfound : (FindOneByHandle queries db login.Handle w).user = some found) :
    ((FindOneByHandle queries db login.Handle w).err ≠ none →
      (Login queries db bc login w).out =
          .returned (some newUser, some (GoError.errorsNew msgInvalidLogin)) ∧
        (Login queries db bc login w).login = login) ∧
    ((FindOneByHandle queries db login.Handle w).err = none →
      bc.CompareHashAndPassword found.Password login.PlaintextPassword ≠ none →
      (Login queries db bc login w).out =
          .returned (some newUser, some (GoError.errorsNew msgInvalidLogin)) ∧
        (Login queries db bc login w).login = { login with PlaintextPassword := "" }) ∧
    ((FindOneByHandle queries db login.Handle w).err = none →
      bc.CompareHashAndPassword found.Password login.PlaintextPassword = none →
      (Login queries db bc login w).out = .returned (some found, none) ∧
        (Login queries db bc login w).login = { login with PlaintextPassword := "" }) := by
  unfold Login
  generalize FindOneByHandle queries db login.Handle w = r at hfound
  rcases r with ⟨user, err, w1⟩
  simp only at hfound
  subst hfound
  refine ⟨?_, ?_, ?_⟩
  · intro h
    cases err with
    | none => exact absurd rfl h
    | some e => simp
  · intro h hc
    simp only at h
    subst h
    cases hcmp : bc.CompareHashAndPassword found.Password login.PlaintextPassword with
    | none => exact absurd hcmp hc
    | some e => simp [hcmp]
  · intro h hc
    simp only at h
    subst h
    simp [hc]

/-- The method `createInDb`, case by case on what the store answers. -/
theorem createInDb_cases {σ : Type} (queries : Queries) (db : DB σ) (u : User)
    (w : World σ) :
    (∀ e, (db.Begin w.st).1 = some e →
      (createInDb queries db u w).out = .panicked ∧
      (createInDb queries db u w).world.log = w.log ++ [DbCall.Begin]) ∧
    ((db.Begin w.st).1 = none →
      (db.TxPrepare queries.UserCreate (db.Begin w.st).2).1 ≠ none →
      (createInDb queries db u w).out =
          .returned (some (GoError.errorsNew msgDatabaseProblem)) ∧
      (createInDb queries db u w).u = u ∧
      (createInDb queries db u w).world.log =
          w.log ++ [DbCall.Begin, DbCall.TxPrepare queries.UserCreate, DbCall.Rollback] ∧
      (createInDb queries db u w).world.st =
          (db.Rollback (db.TxPrepare queries.UserCreate (db.Begin w.st).2).2).2) ∧
    (∀ e, (db.Begin w.st).1 = none →
      (db.TxPrepare queries.UserCreate (db.Begin w.st).2).1 = none →
      (db.QueryRowScanId queries.UserCreate
          [Arg.str u.Handle, Arg.str u.Email, Arg.str u.Password]
          (db.TxPrepare queries.UserCreate (db.Begin w.st).2).2).1 = .error e →
      (createInDb queries db u w).out =
          .returned (some (GoError.errorsNew msgAlreadyFound)) ∧
      (createInDb queries db u w).u = u ∧
      (createInDb queries db u w).world.log =
          w.log ++ [DbCall.Begin, DbCall.TxPrepare queries.UserCreate,
            DbCall.QueryRow queries.UserCreate
              [Arg.str u.Handle, Arg.str u.Email, Arg.str u.Password],
            DbCall.Rollback, DbCall.StmtClose queries.UserCreate] ∧
      (createInDb queries db u w).world.st =
          db.StmtClose queries.UserCreate
            (db.Rollback (db.QueryRowScanId queries.UserCreate
              [Arg.str u.Handle, Arg.str u.Email, Arg.str u.Password]
              (db.TxPrepare queries.UserCreate (db.Begin w.st).2).2).2).2) ∧
    (∀ id, (db.Begin w.st).1 = none →
      (db.TxPrepare queries.UserCreate (db.Begin w.st).2).1 = none →
      (db.QueryRowScanId queries.UserCreate
          [Arg.str u.Handle, Arg.str u.Email, Arg.str u.Password]
          (db.TxPrepare queries.UserCreate (db.Begin w.st).2).2).1 = .ok id →
      (createInDb queries db u w).out = .returned none ∧
      (createInDb queries db u w).u = { u with Id := id } ∧
      (createInDb queries db u w).world.log =
          w.log ++ [DbCall.Begin, DbCall.TxPrepare queries.UserCreate,
            DbCall.QueryRow queries.UserCreate
              [Arg.str u.Handle, Arg.str u.Email, Arg.str u.Password],
            DbCall.Commit, DbCall.StmtClose queries.UserCreate] ∧
      (createInDb queries db u w).world.st =
          db.StmtClose queries.UserCreate
            (db.Commit (db.QueryRowScanId queries.UserCreate
              [Arg.str u.Handle, Arg.str u.Email, Arg.str u.Password]
              (db.TxPrepare queries.UserCreate (db.Begin w.st).2).2).2).2) := by
  refine ⟨?_, ?_, ?_, ?_⟩
  · intro e h
    simp [createInDb, callBegin, h]
  · intro h1 h2
    cases he : (db.TxPrepare queries.UserCreate (db.Begin w.st).2).1 with
    | none => exact absurd he h2
    | some e => simp [createInDb, callBegin, callTxPrepare, callRollback, h1, he]
  · intro e h1 h2 h3
    simp [createInDb, callBegin, callTxPrepare, callQueryRowScanId, callRollback,
      callStmtClose, h1, h2, h3]
  · intro id h1 h2 h3
    simp [createInDb, callBegin, callTxPrepare, callQueryRowScanId, callCommit,
      callStmtClose, h1, h2, h3]

/-- The method `Register` when the password-setting step fails: the error is
returned and the store is not touched. -/
theorem Register_of_SetPassword_error {σ : Type} (queries : Queries) (db : DB σ)
    (bc : Bcrypt) (u : User) (w : World σ) (e : GoError)
    (h : (SetPassword bc u u.PlaintextPassword).err = some e) :
    (Register queries db bc u w).out = .returned (some e) ∧
    (Register queries db bc u w).world = w ∧
    (Register queries db bc u w).u = (SetPassword bc u u.PlaintextPassword).u := by
  unfold Register
  generalize SetPassword bc u u.PlaintextPassword = r at h
  rcases r with ⟨u1, err⟩
  simp only at h
  subst h
  simp

/-- The method `Register` when the password-setting step succeeds: the rest is
`createInDb` on the user carrying the digest and no plaintext. -/
theorem Register_of_hash_ok {σ : Type} (queries : Queries) (db : DB σ)
    (bc : Bcrypt) (u : User) (w : World σ) (hpass : String)
    (hne : u.PlaintextPassword ≠ "")
    (hhash : bc.GenerateFromPassword u.PlaintextPassword bc.DefaultCost = .ok hpass) :
    Register queries db bc u w =
      createInDb queries db { u with PlaintextPassword := "", Password := hpass } w := by
  have hlen : ¬ len u.PlaintextPassword < 1 := fun h => hne ((len_lt_one_iff _).1 h)
  simp [Register, SetPassword, hlen, hhash]

/-- The error of the password-setting step of `Register`: the no-password
error for an empty plaintext, otherwise whatever hashing answers. -/
theorem SetPassword_err (bc : Bcrypt) (u : User) (password : String) :
    (SetPassword bc u password).err =
      (if password = "" then some (GoError.errorsNew msgNoPassword)
       else match bc.GenerateFromPassword password bc.DefaultCost with
         | .error err => some err
         | .ok _ => none) := by
  unfold SetPassword
  by_cases hp : password = ""
  · rw [if_pos ((len_lt_one_iff password).2 hp), if_pos hp]
  · rw [if_neg (fun h => hp ((len_lt_one_iff password).1 h)), if_neg hp]
    cases bc.GenerateFromPassword password bc.DefaultCost <;> rfl

/-! ## The claims -/

/-- C1. `Login` returns a nil error exactly when the lookup by `login.Handle`
returns no error and the stored `Password` verifies against
`login.PlaintextPassword`; it then returns the record the lookup found.  In every
other case it returns a fresh zero-valued user (`Id = 0`, a guest) and the
error whose text is "The username or password was invalid", the same value
whether the lookup or the verification failed. -/
theorem Login_nil_error_iff {σ : Type} (queries : Queries) (db : DB σ) (bc : Bcrypt)
    (login : User) (w : World σ) :
    ∃ found : User,
      (FindOneByHandle queries db login.Handle w).user = some found ∧
      (Login queries db bc login w).out =
        (if (FindOneByHandle queries db login.Handle w).err = none ∧
            bc.CompareHashAndPassword found.Password login.PlaintextPassword = none
         then .returned (some found, none)
         else .returned (some newUser, some (GoError.errorsNew msgInvalidLogin))) ∧
      ((∃ user, (Login queries db bc login w).out = .returned (user, none)) ↔
        ((FindOneByHandle queries db login.Handle w).err = none ∧
          bc.CompareHashAndPassword found.Password login.PlaintextPassword = none)) ∧
      newUser.Id = 0 ∧ Guest newUser = true ∧
      (GoError.errorsNew msgInvalidLogin).Error = "The username or password was invalid" := by
  obtain ⟨found, hfound⟩ := FindOneByHandle_user_isSome queries db login.Handle w
  obtain ⟨h1, h2, h3⟩ := Login_eq queries db bc login w found hfound
  refine ⟨found, hfound, ?_, ?_, rfl, rfl, rfl⟩
  · by_cases he : (FindOneByHandle queries db login.Handle w).err = none
    · by_cases hc : bc.CompareHashAndPassword found.Password login.PlaintextPassword = none
      · rw [if_pos ⟨he, hc⟩]
        exact (h3 he hc).1
      · rw [if_neg (fun h => hc h.2)]
        exact (h2 he hc).1
    · rw [if_neg (fun h => he h.1)]
      exact (h1 he).1
  · constructor
    · rintro ⟨user, hu⟩
      by_cases he : (FindOneByHandle queries db login.Handle w).err = none
      · by_cases hc : bc.CompareHashAndPassword found.Password login.PlaintextPassword = none
        · exact ⟨he, hc⟩
        · rw [(h2 he hc).1] at hu
          simp at hu
      · rw [(h1 he).1] at hu
        simp at hu
    · rintro ⟨he, hc⟩
      exact ⟨some found, (h3 he hc).1⟩

/-- C1, on concrete inputs: the right password logs `alice` in, a wrong password
and an unknown handle give the same guest user and the same error. -/
theorem Login_examples :
    (Login sampleQueries memDB toyBcrypt alice (fresh aliceStore)).out =
      .returned (some { Id := 1, Handle := "alice", Email := "alice@example.org",
                        Password := "$2a$10$secret", Created := 1,
                        PlaintextPassword := "" }, none) ∧
    (Login sampleQueries memDB toyBcrypt { alice with PlaintextPassword := "wrong" }
        (fresh aliceStore)).out =
      .returned (some newUser, some (GoError.errorsNew msgInvalidLogin)) ∧
    (Login sampleQueries memDB toyBcrypt { alice with Handle := "nobody" }
        (fresh aliceStore)).out =
      .returned (some newUser, some (GoError.errorsNew msgInvalidLogin)) := by
  refine ⟨?_, ?_, ?_⟩ <;> rfl

/-- C2, checked at a concrete input (the claim fails there): a login under a
handle the store does not hold returns at the first `return`, before the
assignment that clears the field, and the credentials keep their plaintext
password. -/
theorem Login_lookup_failure_keeps_plaintext :
    (Login sampleQueries memDB toyBcrypt
        { newUser with Handle := "nobody", PlaintextPassword := "secret" }
        (fresh emptyStore)).login.PlaintextPassword = "secret" ∧
    (Login sampleQueries memDB toyBcrypt
        { newUser with Handle := "nobody", PlaintextPassword := "secret" }
        (fresh emptyStore)).out =
      .returned (some newUser, some (GoError.errorsNew msgInvalidLogin)) := by
  constructor <;> rfl

/-- The part of C2 that holds: once the lookup has succeeded, `Login` clears
the plaintext password of the credentials, whether the verification succeeds or
fails; when the lookup fails the credentials are left as they were. -/
theorem Login_plaintext_after {σ : Type} (queries : Queries) (db : DB σ) (bc : Bcrypt)
    (login : User) (w : World σ) :
    (Login queries db bc login w).login =
      (if (FindOneByHandle queries db login.Handle w).err = none
       then { login with PlaintextPassword := "" } else login) := by
  obtain ⟨found, hfound⟩ := FindOneByHandle_user_isSome queries db login.Handle w
  obtain ⟨h1, h2, h3⟩ := Login_eq queries db bc login w found hfound
  by_cases he : (FindOneByHandle queries db login.Handle w).err = none
  · rw [if_pos he]
    by_cases hc : bc.CompareHashAndPassword found.Password login.PlaintextPassword = none
    · exact (h3 he hc).2
    · exact (h2 he hc).2
  · rw [if_neg he]
    exact (h1 he).2

/-- C3, checked at a concrete input (the claim fails there): `SetPassword`
called with the empty string returns at the length check, before the assignment
that clears the field, and the user keeps its plaintext password. -/
theorem SetPassword_empty_keeps_plaintext :
    (SetPassword toyBcrypt alice "").u.PlaintextPassword = "secret" ∧
    (SetPassword toyBcrypt alice "").err = some (GoError.errorsNew msgNoPassword) := by
  constructor <;> rfl

/-- The part of C3 that holds: for a non-empty password `SetPassword` clears
the plaintext password whether hashing succeeds or fails; for the empty
password it leaves the user untouched. -/
theorem SetPassword_plaintext_after (bc : Bcrypt) (u : User) (password : String) :
    (SetPassword bc u password).u.PlaintextPassword =
      (if password = "" then u.PlaintextPassword else "") := by
  unfold SetPassword
  by_cases hp : password = ""
  · rw [if_pos ((len_lt_one_iff password).2 hp), if_pos hp]
  · rw [if_neg (fun h => hp ((len_lt_one_iff password).1 h)), if_neg hp]
    cases bc.GenerateFromPassword password bc.DefaultCost <;> rfl

/-- C4. When the password-setting step of `Register` fails (the plaintext
password is empty, or hashing returns an error), `Register` returns that error
and makes no call on the store: the store state and the call log are what they
were.  For an empty plaintext password the error is the no-password error. -/
theorem Register_password_failure_no_store_call {σ : Type} (queries : Queries)
    (db : DB σ) (bc : Bcrypt) (u : User) (w : World σ)
    (hfail : u.PlaintextPassword = "" ∨
      ∃ e, bc.GenerateFromPassword u.PlaintextPassword bc.DefaultCost = .error e) :
    (Register queries db bc u w).out =
        .returned (SetPassword bc u u.PlaintextPassword).err ∧
    (SetPassword bc u u.PlaintextPassword).err ≠ none ∧
    (Register queries db bc u w).world = w ∧
    callsSince w (Register queries db bc u w).world = [] ∧
    (u.PlaintextPassword = "" →
      (Register queries db bc u w).out =
        .returned (some (GoError.errorsNew msgNoPassword))) := by
  have herr : ∃ e, (SetPassword bc u u.PlaintextPassword).err = some e := by
    rw [SetPassword_err]
    by_cases hp : u.PlaintextPassword = ""
    · exact ⟨_, if_pos hp⟩
    · rcases hfail with h | ⟨e, he⟩
      · exact absurd h hp
      · refine ⟨e, ?_⟩
        rw [if_neg hp, he]
  obtain ⟨e, he⟩ := herr
  obtain ⟨hout, hworld, _⟩ := Register_of_SetPassword_error queries db bc u w e he
  refine ⟨?_, ?_, hworld, ?_, ?_⟩
  · rw [hout, he]
  · rw [he]
    exact Option.some_ne_none e
  · rw [hworld]
    simp [callsSince]
  · intro hp
    rw [hout, ← he, SetPassword_err, if_pos hp]

/-- C4 at a concrete input: registering a user without a password in a store
that already holds a row returns the no-password error and leaves the store
and the call log as they were. -/
theorem Register_password_failure_no_store_call_witness :
    ({ alice with PlaintextPassword := "" } : User).PlaintextPassword = "" ∧
    (Register sampleQueries memDB toyBcrypt { alice with PlaintextPassword := "" }
        (fresh aliceStore)).out = .returned (some (GoError.errorsNew msgNoPassword)) ∧
    (Register sampleQueries memDB toyBcrypt { alice with PlaintextPassword := "" }
        (fresh aliceStore)).world = fresh aliceStore ∧
    callsSince (fresh aliceStore)
      (Register sampleQueries memDB toyBcrypt { alice with PlaintextPassword := "" }
        (fresh aliceStore)).world = [] :=
  ⟨rfl,
   (Register_password_failure_no_store_call sampleQueries memDB toyBcrypt
      { alice with PlaintextPassword := "" } (fresh aliceStore) (Or.inl rfl)).2.2.2.2 rfl,
   (Register_password_failure_no_store_call sampleQueries memDB toyBcrypt
      { alice with PlaintextPassword := "" } (fresh aliceStore) (Or.inl rfl)).2.2.1,
   (Register_password_failure_no_store_call sampleQueries memDB toyBcrypt
      { alice with PlaintextPassword := "" } (fresh aliceStore) (Or.inl rfl)).2.2.2.1⟩

/-- C4 when hashing fails: the error of the hashing library is returned and no
call is made on the store. -/
theorem Register_hash_failure_example :
    (Register sampleQueries memDB failingBcrypt alice (fresh emptyStore)).out =
      .returned (some errCost) ∧
    (Register sampleQueries memDB failingBcrypt alice (fresh emptyStore)).world.log = [] ∧
    (Register sampleQueries memDB failingBcrypt alice (fresh emptyStore)).world.st =
      emptyStore := by
  refine ⟨?_, ?_, ?_⟩ <;> rfl

/-- C5. Whatever the `Password` and `PlaintextPassword` fields hold before the
call, every call `Register` makes on the store is one of `Begin`, the `Prepare`
of the insert statement, the insert itself, `Rollback`, `Commit` and `Close`;
hashing has then succeeded, and the insert is handed exactly the handle, the
email and the digest hashing returned for the supplied plaintext: neither the
`Password` the caller had set nor the plaintext password is an argument of any
call. -/
theorem Register_store_calls {σ : Type} (queries : Queries) (db : DB σ) (bc : Bcrypt)
    (u : User) (w : World σ) (c : DbCall)
    (hcall : c ∈ callsSince w (Register queries db bc u w).world) :
    ∃ hpass, u.PlaintextPassword ≠ "" ∧
      bc.GenerateFromPassword u.PlaintextPassword bc.DefaultCost = .ok hpass ∧
      c ∈ [DbCall.Begin, DbCall.TxPrepare queries.UserCreate,
           DbCall.QueryRow queries.UserCreate
             [Arg.str u.Handle, Arg.str u.Email, Arg.str hpass],
           DbCall.Rollback, DbCall.Commit, DbCall.StmtClose queries.UserCreate] := by
  have hnone : ∀ e, (SetPassword bc u u.PlaintextPassword).err = some e → False := by
    intro e he
    rw [(Register_of_SetPassword_error queries db bc u w e he).2.1] at hcall
    simp [callsSince] at hcall
  by_cases hp : u.PlaintextPassword = ""
  · exact (hnone _ (by rw [SetPassword_err, if_pos hp])).elim
  · cases hgen : bc.GenerateFromPassword u.PlaintextPassword bc.DefaultCost with
    | error e => exact (hnone e (by rw [SetPassword_err, if_neg hp, hgen])).elim
    | ok hpass =>
      refine ⟨hpass, hp, rfl, ?_⟩
      rw [Register_of_hash_ok queries db bc u w hpass hp hgen] at hcall
      obtain ⟨h1, h2, h3, h4⟩ := createInDb_cases queries db
        { u with PlaintextPassword := "", Password := hpass } w
      have key : ∀ calls, (createInDb queries db
            { u with PlaintextPassword := "", Password := hpass } w).world.log =
            w.log ++ calls → c ∈ calls := by
        intro calls hlog
        unfold callsSince at hcall
        rw [hlog] at hcall
        simpa using hcall
      cases hb : (db.Begin w.st).1 with
      | some e =>
        have := key _ (h1 e hb).2
        simp at this
        simp [this]
      | none =>
        cases ht : (db.TxPrepare queries.UserCreate (db.Begin w.st).2).1 with
        | some e =>
          have := key _ (h2 hb (by rw [ht]; exact Option.some_ne_none e)).2.2.1
          simp at this
          rcases this with h | h | h <;> simp [h]
        | none =>
          cases hi : (db.QueryRowScanId queries.UserCreate
              [Arg.str u.Handle, Arg.str u.Email, Arg.str hpass]
              (db.TxPrepare queries.UserCreate (db.Begin w.st).2).2).1 with
          | error e =>
            have := key _ (h3 e hb ht hi).2.2.1
            simp at this
            rcases this with h | h | h | h | h <;> simp [h]
          | ok id =>
            have := key _ (h4 id hb ht hi).2.2.1
            simp at this
            rcases this with h | h | h | h | h <;> simp [h]

/-- C5 at a concrete input: a candidate whose `Password` the caller had set is
registered; the insert is handed the digest of the plaintext, not that value. -/
theorem Register_store_calls_witness :
    DbCall.QueryRow sampleQueries.UserCreate
        [Arg.str "alice", Arg.str "alice@example.org", Arg.str "$2a$10$secret"] ∈
      callsSince (fresh emptyStore)
        (Register sampleQueries memDB toyBcrypt { alice with Password := "set by the caller" }
          (fresh emptyStore)).world ∧
    ∃ hpass, alice.PlaintextPassword ≠ "" ∧
      toyBcrypt.GenerateFromPassword alice.PlaintextPassword toyBcrypt.DefaultCost =
        .ok hpass ∧
      DbCall.QueryRow sampleQueries.UserCreate
          [Arg.str "alice", Arg.str "alice@example.org", Arg.str "$2a$10$secret"] ∈
        [DbCall.Begin, DbCall.TxPrepare sampleQueries.UserCreate,
         DbCall.QueryRow sampleQueries.UserCreate
           [Arg.str alice.Handle, Arg.str alice.Email, Arg.str hpass],
         DbCall.Rollback, DbCall.Commit, DbCall.StmtClose sampleQueries.UserCreate] :=
  ⟨by decide,
   Register_store_calls sampleQueries memDB toyBcrypt
     { alice with Password := "set by the caller" } (fresh emptyStore) _ (by decide)⟩

/-- C6. In a `Register` call in which hashing succeeds and the transaction is
begun: if preparing the insert statement fails or the insert fails, `Rollback`
is called and `Commit` is not, the store is left in the state `Rollback`
produced from the state the failed step left (followed, after a failed insert,
only by the `Close` of the statement), and `Register` returns a non-nil error;
when it is the insert that failed, the error is the fixed already-found
message, whatever error the store gave. -/
theorem Register_failure_rolls_back {σ : Type} (queries : Queries) (db : DB σ)
    (bc : Bcrypt) (u : User) (w : World σ) (hpass : String)
    (hne : u.PlaintextPassword ≠ "")
    (hhash : bc.GenerateFromPassword u.PlaintextPassword bc.DefaultCost = .ok hpass)
    (hbegin : (db.Begin w.st).1 = none)
    (hfail : (db.TxPrepare queries.UserCreate (db.Begin w.st).2).1 ≠ none ∨
      ∃ e, (db.QueryRowScanId queries.UserCreate
        [Arg.str u.Handle, Arg.str u.Email, Arg.str hpass]
        (db.TxPrepare queries.UserCreate (db.Begin w.st).2).2).1 = .error e) :
    DbCall.Rollback ∈ callsSince w (Register queries db bc u w).world ∧
    DbCall.Commit ∉ callsSince w (Register queries db bc u w).world ∧
    (Register queries db bc u w).out =
      .returned (some (GoError.errorsNew
        (if (db.TxPrepare queries.UserCreate (db.Begin w.st).2).1 = none
         then msgAlreadyFound else msgDatabaseProblem))) ∧
    (Register queries db bc u w).world.st =
      (if (db.TxPrepare queries.UserCreate (db.Begin w.st).2).1 = none
       then db.StmtClose queries.UserCreate
         (db.Rollback (db.QueryRowScanId queries.UserCreate
           [Arg.str u.Handle, Arg.str u.Email, Arg.str hpass]
           (db.TxPrepare queries.UserCreate (db.Begin w.st).2).2).2).2
       else (db.Rollback (db.TxPrepare queries.UserCreate (db.Begin w.st).2).2).2) ∧
    callsSince w (Register queries db bc u w).world =
      (if (db.TxPrepare queries.UserCreate (db.Begin w.st).2).1 = none
       then [DbCall.Begin, DbCall.TxPrepare queries.UserCreate,
             DbCall.QueryRow queries.UserCreate
               [Arg.str u.Handle, Arg.str u.Email, Arg.str hpass],
             DbCall.Rollback, DbCall.StmtClose queries.UserCreate]
       else [DbCall.Begin, DbCall.TxPrepare queries.UserCreate, DbCall.Rollback]) := by
  rw [Register_of_hash_ok queries db bc u w hpass hne hhash]
  obtain ⟨_, h2, h3, _⟩ := createInDb_cases queries db
    { u with PlaintextPassword := "", Password := hpass } w
  by_cases ht : (db.TxPrepare queries.UserCreate (db.Begin w.st).2).1 = none
  · rcases hfail with h | ⟨e, he⟩
    · exact absurd ht h
    · obtain ⟨hout, _, hlog, hst⟩ := h3 e hbegin ht he
      rw [if_pos ht, if_pos ht, if_pos ht, hout, hst]
      unfold callsSince
      rw [hlog]
      simp
  · obtain ⟨hout, _, hlog, hst⟩ := h2 hbegin ht
    rw [if_neg ht, if_neg ht, if_neg ht, hout, hst]
    unfold callsSince
    rw [hlog]
    simp

/-- C6 at a concrete input: `alice` registers in a store whose insert adds the
row and then fails.  The failed insert leaves her row pending; the transaction
is rolled back and not committed, the fixed message is returned, and afterwards
the store holds no row, pending or committed. -/
theorem Register_failure_rolls_back_witness :
    (alice.PlaintextPassword ≠ "" ∧
      toyBcrypt.GenerateFromPassword alice.PlaintextPassword toyBcrypt.DefaultCost =
        .ok "$2a$10$secret" ∧
      (memDB.Begin (fresh scanFailStore).st).1 = none ∧
      (memDB.QueryRowScanId sampleQueries.UserCreate
        [Arg.str alice.Handle, Arg.str alice.Email, Arg.str "$2a$10$secret"]
        (memDB.TxPrepare sampleQueries.UserCreate
          (memDB.Begin (fresh scanFailStore).st).2).2).1 = .error errBadConn ∧
      (memDB.QueryRowScanId sampleQueries.UserCreate
        [Arg.str alice.Handle, Arg.str alice.Email, Arg.str "$2a$10$secret"]
        (memDB.TxPrepare sampleQueries.UserCreate
          (memDB.Begin (fresh scanFailStore).st).2).2).2.pending = [aliceRow]) ∧
    (DbCall.Rollback ∈ callsSince (fresh scanFailStore)
        (Register sampleQueries memDB toyBcrypt alice (fresh scanFailStore)).world ∧
      DbCall.Commit ∉ callsSince (fresh scanFailStore)
        (Register sampleQueries memDB toyBcrypt alice (fresh scanFailStore)).world ∧
      (Register sampleQueries memDB toyBcrypt alice (fresh scanFailStore)).out =
        .returned (some (GoError.errorsNew
          (if (memDB.TxPrepare sampleQueries.UserCreate
                (memDB.Begin (fresh scanFailStore).st).2).1 = none
           then msgAlreadyFound else msgDatabaseProblem))) ∧
      (Register sampleQueries memDB toyBcrypt alice (fresh scanFailStore)).world.st =
        (if (memDB.TxPrepare sampleQueries.UserCreate
              (memDB.Begin (fresh scanFailStore).st).2).1 = none
         then memDB.StmtClose sampleQueries.UserCreate
           (memDB.Rollback (memDB.QueryRowScanId sampleQueries.UserCreate
             [Arg.str alice.Handle, Arg.str alice.Email, Arg.str "$2a$10$secret"]
             (memDB.TxPrepare sampleQueries.UserCreate
               (memDB.Begin (fresh scanFailStore).st).2).2).2).2
         else (memDB.Rollback (memDB.TxPrepare sampleQueries.UserCreate
               (memDB.Begin (fresh scanFailStore).st).2).2).2) ∧
      callsSince (fresh scanFailStore)
          (Register sampleQueries memDB toyBcrypt alice (fresh scanFailStore)).world =
        (if (memDB.TxPrepare sampleQueries.UserCreate
              (memDB.Begin (fresh scanFailStore).st).2).1 = none
         then [DbCall.Begin, DbCall.TxPrepare sampleQueries.UserCreate,
               DbCall.QueryRow sampleQueries.UserCreate
                 [Arg.str alice.Handle, Arg.str alice.Email, Arg.str "$2a$10$secret"],
               DbCall.Rollback, DbCall.StmtClose sampleQueries.UserCreate]
         else [DbCall.Begin, DbCall.TxPrepare sampleQueries.UserCreate,
               DbCall.Rollback])) ∧
    ((Register sampleQueries memDB toyBcrypt alice (fresh scanFailStore)).world.st =
        scanFailStore ∧
      (Register sampleQueries memDB toyBcrypt alice (fresh scanFailStore)).world.st.rows =
        [] ∧
      (Register sampleQueries memDB toyBcrypt alice (fresh scanFailStore)).world.st.pending =
        [] ∧
      (memDB.Commit (memDB.QueryRowScanId sampleQueries.UserCreate
        [Arg.str alice.Handle, Arg.str alice.Email, Arg.str "$2a$10$secret"]
        (memDB.TxPrepare sampleQueries.UserCreate
          (memDB.Begin (fresh scanFailStore).st).2).2).2).2.rows = [aliceRow]) :=
  ⟨⟨by decide, rfl, rfl, rfl, rfl⟩,
   Register_failure_rolls_back sampleQueries memDB toyBcrypt alice (fresh scanFailStore)
     "$2a$10$secret" (by decide) rfl rfl (Or.inr ⟨errBadConn, rfl⟩),
   ⟨rfl, rfl, rfl, rfl⟩⟩

/-- C6 on a duplicate: `alice` registers a second time; the insert fails, the
transaction is rolled back and not committed, the fixed message is returned,
and the rows of the store are what they were. -/
theorem Register_duplicate_example :
    (memInsert [Arg.str "alice", Arg.str "alice@example.org", Arg.str "$2a$10$secret"]
        aliceStore).1 = .error errDuplicate ∧
    (Register sampleQueries memDB toyBcrypt alice (fresh aliceStore)).out =
      .returned (some (GoError.errorsNew msgAlreadyFound)) ∧
    (Register sampleQueries memDB toyBcrypt alice (fresh aliceStore)).world.log =
      [DbCall.Begin, DbCall.TxPrepare sampleQueries.UserCreate,
       DbCall.QueryRow sampleQueries.UserCreate
         [Arg.str "alice", Arg.str "alice@example.org", Arg.str "$2a$10$secret"],
       DbCall.Rollback, DbCall.StmtClose sampleQueries.UserCreate] ∧
    (Register sampleQueries memDB toyBcrypt alice (fresh aliceStore)).world.st =
      aliceStore := by
  refine ⟨?_, ?_, ?_, ?_⟩ <;> rfl

/-- C6 when it is the `Prepare` that fails: rollback, no commit, and the fixed
database-problem message. -/
theorem Register_prepare_failure_example :
    (Register sampleQueries memDB toyBcrypt alice
        (fresh { emptyStore with failTxPrepare := true })).out =
      .returned (some (GoError.errorsNew msgDatabaseProblem)) ∧
    (Register sampleQueries memDB toyBcrypt alice
        (fresh { emptyStore with failTxPrepare := true })).world.log =
      [DbCall.Begin, DbCall.TxPrepare sampleQueries.UserCreate, DbCall.Rollback] ∧
    (Register sampleQueries memDB toyBcrypt alice
        (fresh { emptyStore with failTxPrepare := true })).world.st =
      { emptyStore with failTxPrepare := true } := by
  refine ⟨?_, ?_, ?_⟩ <;> rfl

/-- The result of `tx.Commit()` has no influence on what `Register` returns:
once hashing, `Begin`, `Prepare` and the insert have succeeded, `Register`
returns a nil error. -/
theorem Register_nil_after_insert {σ : Type} (queries : Queries) (db : DB σ)
    (bc : Bcrypt) (u : User) (w : World σ) (hpass : String) (id : Int)
    (hne : u.PlaintextPassword ≠ "")
    (hhash : bc.GenerateFromPassword u.PlaintextPassword bc.DefaultCost = .ok hpass)
    (hbegin : (db.Begin w.st).1 = none)
    (hprep : (db.TxPrepare queries.UserCreate (db.Begin w.st).2).1 = none)
    (hins : (db.QueryRowScanId queries.UserCreate
        [Arg.str u.Handle, Arg.str u.Email, Arg.str hpass]
        (db.TxPrepare queries.UserCreate (db.Begin w.st).2).2).1 = .ok id) :
    (Register queries db bc u w).out = .returned none ∧
    (Register queries db bc u w).u.Id = id := by
  rw [Register_of_hash_ok queries db bc u w hpass hne hhash]
  obtain ⟨_, _, _, h4⟩ := createInDb_cases queries db
    { u with PlaintextPassword := "", Password := hpass } w
  obtain ⟨hout, hu, _⟩ := h4 id hbegin hprep hins
  rw [hout, hu]
  exact ⟨rfl, rfl⟩

/-- C7, checked at concrete inputs (the claim fails there).  In a store whose
`Commit` fails, `Register` calls `Commit`, drops its error and returns a nil
error, although no row has been stored.  In a store whose `Begin` fails,
`Register` returns no error either: the nil transaction is dereferenced. -/
theorem Register_commit_failure_returns_nil :
    (memDB.Commit
        (memInsert [Arg.str "alice", Arg.str "alice@example.org", Arg.str "$2a$10$secret"]
          { emptyStore with failCommit := true }).2).1 = some errBadConn ∧
    (Register sampleQueries memDB toyBcrypt alice
        (fresh { emptyStore with failCommit := true })).out = .returned none ∧
    (Register sampleQueries memDB toyBcrypt alice
        (fresh { emptyStore with failCommit := true })).world.st.rows = [] ∧
    (Register sampleQueries memDB toyBcrypt alice
        (fresh { emptyStore with failCommit := true })).world.log =
      [DbCall.Begin, DbCall.TxPrepare sampleQueries.UserCreate,
       DbCall.QueryRow sampleQueries.UserCreate
         [Arg.str "alice", Arg.str "alice@example.org", Arg.str "$2a$10$secret"],
       DbCall.Commit, DbCall.StmtClose sampleQueries.UserCreate] ∧
    (memDB.Begin { emptyStore with failBegin := true }).1 = some errBadConn ∧
    (Register sampleQueries memDB toyBcrypt alice
        (fresh { emptyStore with failBegin := true })).out = .panicked := by
  refine ⟨?_, ?_, ?_, ?_, ?_, ?_⟩ <;> rfl

/-- C8. A lookup by handle, and likewise a lookup by id: when preparing the
statement fails or the scan fails (no matching row included), the result is a
zero-valued user (`Id = 0`, empty `Handle`, `Email` and `Password`) and the
non-nil error; when a row is scanned, the result is a nil error and a user whose
`Id`, `Handle`, `Email`, `Password` and `Created` are the values of that row. -/
theorem FindOne_result {σ : Type} (queries : Queries) (db : DB σ) (handle : String)
    (id : Int) (w : World σ) :
    ((∀ e, ((db.Prepare queries.UserFindByHandle w.st).1 = some e ∨
          ((db.Prepare queries.UserFindByHandle w.st).1 = none ∧
            (db.QueryRowScanUser queries.UserFindByHandle [Arg.str handle]
              (db.Prepare queries.UserFindByHandle w.st).2).1 = .error e)) →
        (FindOneByHandle queries db handle w).user = some newUser ∧
        (FindOneByHandle queries db handle w).err = some e) ∧
      (∀ row, (db.Prepare queries.UserFindByHandle w.st).1 = none →
        (db.QueryRowScanUser queries.UserFindByHandle [Arg.str handle]
          (db.Prepare queries.UserFindByHandle w.st).2).1 = .ok row →
        (FindOneByHandle queries db handle w).err = none ∧
        ∃ user, (FindOneByHandle queries db handle w).user = some user ∧
          user.Id = row.Id ∧ user.Handle = row.Handle ∧ user.Email = row.Email ∧
          user.Password = row.Password ∧ user.Created = row.Created)) ∧
    ((∀ e, ((db.Prepare queries.UserFindById w.st).1 = some e ∨
          ((db.Prepare queries.UserFindById w.st).1 = none ∧
            (db.QueryRowScanUser queries.UserFindById [Arg.int id]
              (db.Prepare queries.UserFindById w.st).2).1 = .error e)) →
        (FindOneUserById queries db id w).user = some newUser ∧
        (FindOneUserById queries db id w).err = some e) ∧
      (∀ row, (db.Prepare queries.UserFindById w.st).1 = none →
        (db.QueryRowScanUser queries.UserFindById [Arg.int id]
          (db.Prepare queries.UserFindById w.st).2).1 = .ok row →
        (FindOneUserById queries db id w).err = none ∧
        ∃ user, (FindOneUserById queries db id w).user = some user ∧
          user.Id = row.Id ∧ user.Handle = row.Handle ∧ user.Email = row.Email ∧
          user.Password = row.Password ∧ user.Created = row.Created)) ∧
    (newUser.Id = 0 ∧ newUser.Handle = "" ∧ newUser.Email = "" ∧
      newUser.Password = "") := by
  obtain ⟨a1, a2, a3⟩ := FindOneByHandle_cases queries db handle w
  obtain ⟨b1, b2, b3⟩ := FindOneUserById_cases queries db id w
  refine ⟨⟨?_, ?_⟩, ⟨?_, ?_⟩, rfl, rfl, rfl, rfl⟩
  · rintro e (h | ⟨h1, h2⟩)
    · exact a1 e h
    · exact a2 e h1 h2
  · intro row h1 h2
    exact ⟨(a3 row h1 h2).2, _, (a3 row h1 h2).1, rfl, rfl, rfl, rfl, rfl⟩
  · rintro e (h | ⟨h1, h2⟩)
    · exact b1 e h
    · exact b2 e h1 h2
  · intro row h1 h2
    exact ⟨(b3 row h1 h2).2, _, (b3 row h1 h2).1, rfl, rfl, rfl, rfl, rfl⟩

/-- C8 at concrete inputs: the handle `alice` is found in a store holding her
row, the id 7 is not. -/
theorem FindOne_result_witness :
    ((FindOneByHandle sampleQueries memDB "alice" (fresh aliceStore)).err = none ∧
      ∃ user, (FindOneByHandle sampleQueries memDB "alice" (fresh aliceStore)).user =
          some user ∧
        user.Id = aliceRow.Id ∧ user.Handle = aliceRow.Handle ∧
        user.Email = aliceRow.Email ∧ user.Password = aliceRow.Password ∧
        user.Created = aliceRow.Created) ∧
    ((FindOneUserById sampleQueries memDB 7 (fresh aliceStore)).user = some newUser ∧
      (FindOneUserById sampleQueries memDB 7 (fresh aliceStore)).err = some errNoRows) :=
  ⟨(FindOne_result sampleQueries memDB "alice" 7 (fresh aliceStore)).1.2 aliceRow rfl rfl,
   (FindOne_result sampleQueries memDB "alice" 7 (fresh aliceStore)).2.1.1 errNoRows
     (Or.inr ⟨rfl, rfl⟩)⟩

/-- C9, refuted at a concrete input: a lookup of a handle the store does not
hold returns the very error value the store produced, which is none of the
fixed errors of the package. -/
theorem FindOneByHandle_returns_store_error :
    (memDB.QueryRowScanUser sampleQueries.UserFindByHandle [Arg.str "nobody"]
        (memDB.Prepare sampleQueries.UserFindByHandle emptyStore).2).1 = .error errNoRows ∧
    (FindOneByHandle sampleQueries memDB "nobody" (fresh emptyStore)).err = some errNoRows ∧
    errNoRows ∉ moduleErrors := by
  refine ⟨rfl, rfl, ?_⟩
  decide

/-- C9 as amended.  When hashing has succeeded, every error `Register` returns
is one of the two fixed messages of `createInDb`, and every error `Login`
returns is the fixed invalid-login message: the error value of the store is not
returned by them.  `FindOneByHandle` and `FindOneUserById` return the error
value of the store as it is. -/
theorem store_errors_to_caller {σ : Type} (queries : Queries) (db : DB σ) (bc : Bcrypt)
    (u login : User) (handle : String) (id : Int) (w : World σ) :
    (∀ e, (SetPassword bc u u.PlaintextPassword).err = none →
      (Register queries db bc u w).out = .returned (some e) →
      e = GoError.errorsNew msgDatabaseProblem ∨ e = GoError.errorsNew msgAlreadyFound) ∧
    (∀ user e, (Login queries db bc login w).out = .returned (user, some e) →
      e = GoError.errorsNew msgInvalidLogin) ∧
    (∀ e, ((db.Prepare queries.UserFindByHandle w.st).1 = some e ∨
        ((db.Prepare queries.UserFindByHandle w.st).1 = none ∧
          (db.QueryRowScanUser queries.UserFindByHandle [Arg.str handle]
            (db.Prepare queries.UserFindByHandle w.st).2).1 = .error e)) →
      (FindOneByHandle queries db handle w).err = some e) ∧
    (∀ e, ((db.Prepare queries.UserFindById w.st).1 = some e ∨
        ((db.Prepare queries.UserFindById w.st).1 = none ∧
          (db.QueryRowScanUser queries.UserFindById [Arg.int id]
            (db.Prepare queries.UserFindById w.st).2).1 = .error e)) →
      (FindOneUserById queries db id w).err = some e) := by
  refine ⟨?_, ?_, ?_, ?_⟩
  · intro e hset hout
    have hp : u.PlaintextPassword ≠ "" := by
      intro hp
      rw [SetPassword_err, if_pos hp] at hset
      exact Option.some_ne_none _ hset
    cases hgen : bc.GenerateFromPassword u.PlaintextPassword bc.DefaultCost with
    | error e1 =>
      rw [SetPassword_err, if_neg hp, hgen] at hset
      exact absurd hset (Option.some_ne_none _)
    | ok hpass =>
      rw [Register_of_hash_ok queries db bc u w hpass hp hgen] at hout
      obtain ⟨h1, h2, h3, h4⟩ := createInDb_cases queries db
        { u with PlaintextPassword := "", Password := hpass } w
      cases hb : (db.Begin w.st).1 with
      | some e1 =>
        rw [(h1 e1 hb).1] at hout
        exact absurd hout (by simp)
      | none =>
        cases ht : (db.TxPrepare queries.UserCreate (db.Begin w.st).2).1 with
        | some e1 =>
          rw [(h2 hb (by rw [ht]; exact Option.some_ne_none e1)).1] at hout
          left
          simpa using hout.symm
        | none =>
          cases hi : (db.QueryRowScanId queries.UserCreate
              [Arg.str u.Handle, Arg.str u.Email, Arg.str hpass]
              (db.TxPrepare queries.UserCreate (db.Begin w.st).2).2).1 with
          | error e1 =>
            rw [(h3 e1 hb ht hi).1] at hout
            right
            simpa using hout.symm
          | ok id1 =>
            rw [(h4 id1 hb ht hi).1] at hout
            exact absurd hout (by simp)
  · intro user e hout
    obtain ⟨found, hfound⟩ := FindOneByHandle_user_isSome queries db login.Handle w
    obtain ⟨h1, h2, h3⟩ := Login_eq queries db bc login w found hfound
    by_cases he : (FindOneByHandle queries db login.Handle w).err = none
    · by_cases hc : bc.CompareHashAndPassword found.Password login.PlaintextPassword = none
      · rw [(h3 he hc).1] at hout
        simp at hout
      · rw [(h2 he hc).1] at hout
        simp at hout
        exact hout.2.symm
    · rw [(h1 he).1] at hout
      simp at hout
      exact hout.2.symm
  · obtain ⟨a1, a2, _⟩ := FindOneByHandle_cases queries db handle w
    rintro e (h | ⟨h1, h2⟩)
    · exact (a1 e h).2
    · exact (a2 e h1 h2).2
  · obtain ⟨b1, b2, _⟩ := FindOneUserById_cases queries db id w
    rintro e (h | ⟨h1, h2⟩)
    · exact (b1 e h).2
    · exact (b2 e h1 h2).2

/-- C9 as amended, at concrete inputs: the duplicate-key error of the store
reaches the caller of `Register` as the fixed already-found message, a failed
lookup inside `Login` as the fixed invalid-login message, and the no-rows error
reaches the caller of `FindOneUserById` as it is. -/
theorem store_errors_to_caller_witness :
    ((SetPassword toyBcrypt alice alice.PlaintextPassword).err = none ∧
      (Register sampleQueries memDB toyBcrypt alice (fresh aliceStore)).out =
        .returned (some (GoError.errorsNew msgAlreadyFound))) ∧
    (GoError.errorsNew msgAlreadyFound = GoError.errorsNew msgDatabaseProblem ∨
      GoError.errorsNew msgAlreadyFound = GoError.errorsNew msgAlreadyFound) ∧
    (FindOneUserById sampleQueries memDB 7 (fresh aliceStore)).err = some errNoRows :=
  ⟨⟨rfl, rfl⟩,
   (store_errors_to_caller sampleQueries memDB toyBcrypt alice alice "alice" 7
      (fresh aliceStore)).1 _ rfl rfl,
   (store_errors_to_caller sampleQueries memDB toyBcrypt alice alice "alice" 7
      (fresh aliceStore)).2.2.2 errNoRows (Or.inr ⟨rfl, rfl⟩)⟩

/-- C10, checked at a concrete input (the claim fails there): for an id no row
has, `FindOneUserById` returns a pointer to a fresh zero-valued user, not nil,
together with the error of the store. -/
theorem FindOneUserById_missing_not_nil :
    (FindOneUserById sampleQueries memDB 7 (fresh emptyStore)).user = some newUser ∧
    (FindOneUserById sampleQueries memDB 7 (fresh emptyStore)).user ≠ none ∧
    (FindOneUserById sampleQueries memDB 7 (fresh emptyStore)).err = some errNoRows := by
  refine ⟨rfl, ?_, rfl⟩
  decide

end GoUser
